import Mathlib

/-!
Shallow embedding of the ESP32-FreeRTOS telemetry pipeline
(src/telemetry_generators.c and src/telemetry_tasks.c).

Machine integers are modelled as Nat with explicit `% 2^w` where the C code
can overflow (the 16-bit sequence counter, the 32-bit uptime counter).
C `float` values are modelled as `Rat`; the claims about them are interval
bounds with slack far larger than any float rounding, so the rational model
is faithful for those claims.  The bounded packet queue
(`telemetry_storage`) is declared in telemetry_storage.h but its
implementation is not part of this slice of the repository; it is modelled
from the spec's interface contract (§6).
-/

/-- Packet kinds, from the `TELEM_*` enumeration used in the source. -/
inductive TelemetryType where
  | systemStatus
  | powerData
  | temperatureData
  | communicationStatus
deriving DecidableEq, Repr

/-- Packet header: kind, tick timestamp, 16-bit sequence, priority. -/
structure TelemetryHeader where
  type : TelemetryType
  timestamp : Nat
  sequence : Nat
  priority : Nat
deriving DecidableEq, Repr

/-- Payload of `generate_system_telemetry`. -/
structure SystemStatusPayload where
  uptime_seconds : Nat
  system_mode : Nat
  cpu_usage : Nat
  stack_high_water : Nat
  heap_free : Nat
  task_count : Nat
  error_count : Nat
deriving DecidableEq, Repr

/-- Payload of `generate_power_telemetry` (float fields as `Rat`). -/
structure PowerPayload where
  battery_voltage : Rat
  battery_current : Rat
  battery_temperature : Rat
  solar_panel_voltage : Rat
  solar_panel_current : Rat
  battery_level : Int
  power_state : Nat
deriving DecidableEq, Repr

/-- Payload of `generate_temperature_telemetry` (float fields as `Rat`). -/
structure TemperaturePayload where
  obc_temperature : Rat
  comms_temperature : Rat
  payload_temperature : Rat
  battery_temperature : Rat
  external_temperature : Rat
deriving DecidableEq, Repr

/-- Payload of `generate_subsystem_telemetry`. -/
structure SubsystemPayload where
  comms_status : Nat
  adcs_status : Nat
  payload_status : Nat
  power_status : Nat
  comms_uptime : Nat
  payload_uptime : Nat
  last_command_id : Nat
  command_success_rate : Nat
deriving DecidableEq, Repr

/-- The union of payload variants of `telemetry_packet_t`. -/
inductive TelemetryPayload where
  | system (p : SystemStatusPayload)
  | power (p : PowerPayload)
  | temperature (p : TemperaturePayload)
  | subsystems (p : SubsystemPayload)
deriving DecidableEq, Repr

/-- `telemetry_packet_t`: header plus one payload variant. -/
structure TelemetryPacket where
  header : TelemetryHeader
  payload : TelemetryPayload
deriving DecidableEq, Repr

/-- Modelled from the spec: the bounded FIFO packet queue of
`telemetry_storage` (declared in telemetry_storage.h; its implementation is
not part of this repository slice).  Spec §6: a bounded queue with `store`
(success/failure), FIFO `retrieve` (packet or empty) and
`available_count`. -/
structure TelemQueue where
  capacity : Nat
  items : List TelemetryPacket
deriving DecidableEq, Repr

/-- Modelled from the spec: `telemetry_store_packet` — append the packet at
the back if there is room and report success, else leave the queue
unchanged and report failure (the packet is not retained). -/
def telemetry_store_packet (q : TelemQueue) (p : TelemetryPacket) :
    TelemQueue × Bool :=
  if q.items.length < q.capacity then
    ({ q with items := q.items ++ [p] }, true)
  else
    (q, false)

/-- Modelled from the spec: `telemetry_retrieve_packet` — remove and return
the oldest stored packet (FIFO), or report empty. -/
def telemetry_retrieve_packet (q : TelemQueue) :
    TelemQueue × Option TelemetryPacket :=
  match q.items with
  | [] => (q, none)
  | p :: rest => ({ q with items := rest }, some p)

/-- Modelled from the spec: `telemetry_available_packets` — current
occupancy. -/
def telemetry_available_packets (q : TelemQueue) : Nat :=
  q.items.length

/-- The two static counters of telemetry_generators.c:
`static uint16_t sequence_number = 0` and
`static uint32_t system_uptime = 0`.  Both kept below their word size. -/
structure GenState where
  sequence_number : Nat
  system_uptime : Nat
deriving DecidableEq, Repr

/-- Initial values of the static counters. -/
def initGenState : GenState := { sequence_number := 0, system_uptime := 0 }

/-- Inputs a single generator call reads from the platform: the WOKWI
compile-time switch, the tick clock, the opaque value sources, and the
successive `esp_random()` draws of that call. -/
structure Env where
  wokwi : Bool
  tick : Nat
  stack_high_water : Nat
  heap_free : Nat
  task_count : Nat
  r0 : Nat
  r1 : Nat
  r2 : Nat
  r3 : Nat
  r4 : Nat
deriving DecidableEq, Repr

/-- WOKWI virtual voltage source:
`3.3f + ((esp_random() % 200) / 1000.0f)`. -/
def read_virtual_voltage (r : Nat) : Rat :=
  33 / 10 + ((r % 200 : Nat) : Rat) / 1000

/-- WOKWI virtual temperature source:
`25.0f + ((esp_random() % 150) / 10.0f)`. -/
def read_virtual_temperature (r : Nat) : Rat :=
  25 + ((r % 150 : Nat) : Rat) / 10

/-- Observable actions of a task body, used to state ordering claims. -/
inductive Event where
  | build (k : TelemetryType) (seq : Nat)
  | storeEv (k : TelemetryType) (seq : Nat) (ok : Bool)
  | txPacket (k : TelemetryType) (seq : Nat)
  | delayMs (n : Nat)
deriving DecidableEq, Repr

/-- Result of one generator call: updated static counters, updated queue,
the packet the call built, whether its internal store succeeded, and the
trace of observable actions the call performed. -/
structure GenResult where
  state : GenState
  queue : TelemQueue
  packet : TelemetryPacket
  stored : Bool
  trace : List Event
deriving DecidableEq, Repr

/-- `generate_system_telemetry`: builds the system-status packet (stamping
header type/timestamp/sequence/priority), post-increments the shared
sequence counter and the uptime counter, and itself calls
`telemetry_store_packet` on the packet. -/
def generate_system_telemetry (env : Env) (s : GenState) (q : TelemQueue) :
    GenResult :=
  let pkt : TelemetryPacket :=
    { header := { type := TelemetryType.systemStatus
                  timestamp := env.tick
                  sequence := s.sequence_number
                  priority := 1 }
      payload := TelemetryPayload.system
        { uptime_seconds := s.system_uptime
          system_mode := 1
          cpu_usage := 0
          stack_high_water := env.stack_high_water
          heap_free := env.heap_free
          task_count := env.task_count
          error_count := 0 } }
  let s2 : GenState :=
    { sequence_number := (s.sequence_number + 1) % 65536
      system_uptime := (s.system_uptime + 1) % 4294967296 }
  let r := telemetry_store_packet q pkt
  { state := s2, queue := r.1, packet := pkt, stored := r.2
    trace := [Event.build TelemetryType.systemStatus s.sequence_number,
              Event.storeEv TelemetryType.systemStatus s.sequence_number r.2] }

/-- `generate_power_telemetry`: builds the power packet (priority 2;
WOKWI draws jittered voltage/temperature, otherwise nominal constants),
post-increments the shared sequence counter, and itself calls
`telemetry_store_packet`. -/
def generate_power_telemetry (env : Env) (s : GenState) (q : TelemQueue) :
    GenResult :=
  let pkt : TelemetryPacket :=
    { header := { type := TelemetryType.powerData
                  timestamp := env.tick
                  sequence := s.sequence_number
                  priority := 2 }
      payload := TelemetryPayload.power
        { battery_voltage :=
            if env.wokwi then read_virtual_voltage env.r0 else 33 / 10
          battery_current := 1 / 10
          battery_temperature :=
            if env.wokwi then read_virtual_temperature env.r1 else 25
          solar_panel_voltage := 5
          solar_panel_current := 1 / 2
          battery_level := 85 - (s.system_uptime / 3600 : Nat)
          power_state := 0 } }
  let s2 : GenState :=
    { s with sequence_number := (s.sequence_number + 1) % 65536 }
  let r := telemetry_store_packet q pkt
  { state := s2, queue := r.1, packet := pkt, stored := r.2
    trace := [Event.build TelemetryType.powerData s.sequence_number,
              Event.storeEv TelemetryType.powerData s.sequence_number r.2] }

/-- `generate_temperature_telemetry`: builds the temperature packet
(priority 1; five WOKWI draws with fixed offsets, otherwise nominal
constants), post-increments the shared sequence counter, and itself calls
`telemetry_store_packet`. -/
def generate_temperature_telemetry (env : Env) (s : GenState)
    (q : TelemQueue) : GenResult :=
  let pkt : TelemetryPacket :=
    { header := { type := TelemetryType.temperatureData
                  timestamp := env.tick
                  sequence := s.sequence_number
                  priority := 1 }
      payload := TelemetryPayload.temperature
        { obc_temperature :=
            if env.wokwi then read_virtual_temperature env.r0 else 35
          comms_temperature :=
            if env.wokwi then read_virtual_temperature env.r1 - 5 else 28
          payload_temperature :=
            if env.wokwi then read_virtual_temperature env.r2 + 3 else 25
          battery_temperature :=
            if env.wokwi then read_virtual_temperature env.r3 else 22
          external_temperature :=
            if env.wokwi then read_virtual_temperature env.r4 - 10 else -15 } }
  let s2 : GenState :=
    { s with sequence_number := (s.sequence_number + 1) % 65536 }
  let r := telemetry_store_packet q pkt
  { state := s2, queue := r.1, packet := pkt, stored := r.2
    trace := [Event.build TelemetryType.temperatureData s.sequence_number,
              Event.storeEv TelemetryType.temperatureData s.sequence_number r.2] }

/-- `generate_subsystem_telemetry`: builds the subsystem-status packet
(priority 1; `payload_uptime = system_uptime - 100` in unsigned 32-bit
arithmetic), post-increments the shared sequence counter, and itself calls
`telemetry_store_packet`. -/
def generate_subsystem_telemetry (env : Env) (s : GenState)
    (q : TelemQueue) : GenResult :=
  let pkt : TelemetryPacket :=
    { header := { type := TelemetryType.communicationStatus
                  timestamp := env.tick
                  sequence := s.sequence_number
                  priority := 1 }
      payload := TelemetryPayload.subsystems
        { comms_status := 1
          adcs_status := 1
          payload_status := 1
          power_status := 1
          comms_uptime := s.system_uptime
          payload_uptime := (s.system_uptime + 4294967296 - 100) % 4294967296
          last_command_id := 37
          command_success_rate := 98 } }
  let s2 : GenState :=
    { s with sequence_number := (s.sequence_number + 1) % 65536 }
  let r := telemetry_store_packet q pkt
  { state := s2, queue := r.1, packet := pkt, stored := r.2
    trace := [Event.build TelemetryType.communicationStatus s.sequence_number,
              Event.storeEv TelemetryType.communicationStatus s.sequence_number r.2] }

/-- Result of one body of the Collector loop. -/
structure CycleResult where
  state : GenState
  queue : TelemQueue
  trace : List Event
deriving DecidableEq, Repr

/-- One iteration of `vTelemetryCollectorTask`: call the four generators in
the fixed order system, power, temperature, subsystem (each generator
stores its own packet; each call reads the clock independently, hence one
`Env` per call). -/
def collectorCycle (e1 e2 e3 e4 : Env) (s : GenState) (q : TelemQueue) :
    CycleResult :=
  let r1 := generate_system_telemetry e1 s q
  let r2 := generate_power_telemetry e2 r1.state r1.queue
  let r3 := generate_temperature_telemetry e3 r2.state r2.queue
  let r4 := generate_subsystem_telemetry e4 r3.state r3.queue
  { state := r4.state
    queue := r4.queue
    trace := r1.trace ++ r2.trace ++ r3.trace ++ r4.trace }

/-- A run of the Collector: one `collectorCycle` per element of the list of
per-cycle environment quadruples. -/
def collectorRun : List (Env × Env × Env × Env) → GenState → TelemQueue →
    GenState × TelemQueue
  | [], s, q => (s, q)
  | e :: rest, s, q =>
    let r := collectorCycle e.1 e.2.1 e.2.2.1 e.2.2.2 s q
    collectorRun rest r.state r.queue

/-- The sequence field of a packet. -/
def seqOf (p : TelemetryPacket) : Nat := p.header.sequence

/-- Local state of `vTelemetryTransmitterTask`: the
`ground_station_available` gate and the `transmission_count` counter. -/
structure TxState where
  ground_station_available : Bool
  transmission_count : Nat
deriving DecidableEq, Repr

/-- The burst-drain `while(telemetry_retrieve_packet(&packet))` loop of the
Transmitter, unrolled over the queue contents it consumes front to back:
per packet, increment `transmission_count`, print it, and delay 50 ms. -/
def transmitBurst : List TelemetryPacket → Nat → Nat × List Event
  | [], c => (c, [])
  | p :: rest, c =>
    let r := transmitBurst rest (c + 1)
    (r.1, Event.txPacket p.header.type p.header.sequence ::
          Event.delayMs 50 :: r.2)

/-- One iteration of the `for(;;)` loop of `vTelemetryTransmitterTask`:
open the gate when `(tick / 1000) % 30 == 0`; if the gate is open, read the
occupancy and, if nonzero, burst-drain the whole queue, then close the gate
unconditionally; always end with the 2000 ms poll delay. -/
def transmitterIteration (tick : Nat) (st : TxState) (q : TelemQueue) :
    TxState × TelemQueue × List Event :=
  let gate := if (tick / 1000) % 30 = 0 then true
              else st.ground_station_available
  if gate then
    let available := telemetry_available_packets q
    if available > 0 then
      let r := transmitBurst q.items st.transmission_count
      ({ ground_station_available := false, transmission_count := r.1 },
       { q with items := [] },
       r.2 ++ [Event.delayMs 2000])
    else
      ({ ground_station_available := false
         transmission_count := st.transmission_count },
       q, [Event.delayMs 2000])
  else
    (st, q, [Event.delayMs 2000])

/-- Which of the two competing consumer tasks issued a retrieve. -/
inductive TaskId where
  | processor
  | transmitter
deriving DecidableEq, Repr

/-- One interleaved queue operation: a Collector store, or a retrieve
issued by the Processor loop (`telemetry_retrieve_packet` at the top of
`vTelemetryProcessorTask`) or by the Transmitter burst loop. -/
inductive SysOp where
  | storeOp (p : TelemetryPacket)
  | retrieveOp (t : TaskId)
deriving DecidableEq, Repr

/-- Global state of the competing-consumers system: the shared queue, the
packets successfully stored so far (in store order), and the packets each
consumer has retrieved so far (in its own retrieval order). -/
structure ConsState where
  queue : TelemQueue
  storedOk : List TelemetryPacket
  takenP : List TelemetryPacket
  takenT : List TelemetryPacket
deriving DecidableEq, Repr

/-- Effect of one interleaved queue operation, via the queue's `store` and
`retrieve` operations. -/
def consStep (st : ConsState) : SysOp → ConsState
  | SysOp.storeOp p =>
    let r := telemetry_store_packet st.queue p
    { st with queue := r.1
              storedOk := if r.2 then st.storedOk ++ [p] else st.storedOk }
  | SysOp.retrieveOp t =>
    match telemetry_retrieve_packet st.queue with
    | (q2, some p) =>
      match t with
      | TaskId.processor => { st with queue := q2, takenP := st.takenP ++ [p] }
      | TaskId.transmitter => { st with queue := q2, takenT := st.takenT ++ [p] }
    | (q2, none) => { st with queue := q2 }

/-- Run an arbitrary interleaving of queue operations from an empty queue
of the given capacity. -/
def consRun (cap : Nat) (ops : List SysOp) : ConsState :=
  List.foldl consStep
    { queue := { capacity := cap, items := [] }
      storedOk := [], takenP := [], takenT := [] } ops

/-- A concrete environment used by concrete executions: non-WOKWI build,
all platform readings zero. -/
def env0 : Env :=
  { wokwi := false, tick := 0, stack_high_water := 0, heap_free := 0
    task_count := 0, r0 := 0, r1 := 0, r2 := 0, r3 := 0, r4 := 0 }

/-- An empty queue with room for a single packet, used to exercise failed
stores. -/
def qCap1 : TelemQueue := { capacity := 1, items := [] }

/-- First Collector cycle against the capacity-1 queue: the system packet
(sequence 0) is stored, the other three stores fail. -/
def gapCycle1 : CycleResult := collectorCycle env0 env0 env0 env0 initGenState qCap1

/-- First dequeue after the first cycle. -/
def gapRet1 : TelemQueue × Option TelemetryPacket :=
  telemetry_retrieve_packet gapCycle1.queue

/-- Second Collector cycle (sequence counter is now 4): the system packet
(sequence 4) is stored, the other three stores fail. -/
def gapCycle2 : CycleResult :=
  collectorCycle env0 env0 env0 env0 gapCycle1.state gapRet1.1

/-- Second dequeue, consecutive with the first in dequeue order. -/
def gapRet2 : TelemQueue × Option TelemetryPacket :=
  telemetry_retrieve_packet gapCycle2.queue

/-- Projection of an event to (is-store-call, packet kind, sequence),
erasing only the store success flag; `none` on non-generator events. -/
def buildStoreTag : Event → Option (Bool × TelemetryType × Nat)
  | Event.build k n => some (false, k, n)
  | Event.storeEv k n _ => some (true, k, n)
  | Event.txPacket _ _ => none
  | Event.delayMs _ => none

/-- A sample packet for concrete transmitter runs. -/
def pkt0 : TelemetryPacket :=
  (generate_system_telemetry env0 initGenState qCap1).packet

/-- Two Collector cycles against a roomy queue, for concrete executions. -/
def runL2 : List (Env × Env × Env × Env) :=
  [(env0, env0, env0, env0), (env0, env0, env0, env0)]

/-- The competing-consumers invariant: every successfully stored packet is
accounted for exactly once — retrieved by the Processor, retrieved by the
Transmitter, or still queued — both per packet value and in total. -/
def consInv (st : ConsState) : Prop :=
  (∀ pk : TelemetryPacket,
    st.takenP.count pk + st.takenT.count pk + st.queue.items.count pk =
      st.storedOk.count pk)
  ∧ st.takenP.length + st.takenT.length + st.queue.items.length =
      st.storedOk.length

/-- The Transmitter's inner `while(telemetry_retrieve_packet(&packet))`
loop written directly against the queue's retrieve operation, with a fuel
bound for termination; `drainAllFuel_eq_transmitBurst` shows it computes
`transmitBurst` on the queue contents. -/
def drainAllFuel : Nat → TelemQueue → Nat → TelemQueue × Nat × List Event
  | 0, q, c => (q, c, [])
  | Nat.succ fuel, q, c =>
    match telemetry_retrieve_packet q with
    | (q2, some p) =>
      let r := drainAllFuel fuel q2 (c + 1)
      (r.1, r.2.1, Event.txPacket p.header.type p.header.sequence ::
        Event.delayMs 50 :: r.2.2)
    | (_, none) => (q, c, [])

/-- C6: every generator stamps a fixed per-kind priority (1 for
system/temperature/subsystem, 2 for power), its own kind, the current tick
as timestamp, and the shared sequence counter. -/
theorem generator_headers_fixed (env : Env) (s : GenState) (q : TelemQueue) :
    (generate_system_telemetry env s q).packet.header =
      { type := TelemetryType.systemStatus, timestamp := env.tick
        sequence := s.sequence_number, priority := 1 }
    ∧ (generate_power_telemetry env s q).packet.header =
      { type := TelemetryType.powerData, timestamp := env.tick
        sequence := s.sequence_number, priority := 2 }
    ∧ (generate_temperature_telemetry env s q).packet.header =
      { type := TelemetryType.temperatureData, timestamp := env.tick
        sequence := s.sequence_number, priority := 1 }
    ∧ (generate_subsystem_telemetry env s q).packet.header =
      { type := TelemetryType.communicationStatus, timestamp := env.tick
        sequence := s.sequence_number, priority := 1 } :=
  ⟨rfl, rfl, rfl, rfl⟩

/-- C2: one Collector cycle performs exactly eight build/store actions:
the four kinds in the fixed order system, power, temperature, subsystem,
each packet handed to `telemetry_store_packet` before the next one is
built. -/
theorem collector_cycle_four_kinds_in_order (e1 e2 e3 e4 : Env)
    (s : GenState) (q : TelemQueue) :
    (collectorCycle e1 e2 e3 e4 s q).trace.map buildStoreTag =
      [some (false, TelemetryType.systemStatus, s.sequence_number),
       some (true, TelemetryType.systemStatus, s.sequence_number),
       some (false, TelemetryType.powerData, (s.sequence_number + 1) % 65536),
       some (true, TelemetryType.powerData, (s.sequence_number + 1) % 65536),
       some (false, TelemetryType.temperatureData, (s.sequence_number + 2) % 65536),
       some (true, TelemetryType.temperatureData, (s.sequence_number + 2) % 65536),
       some (false, TelemetryType.communicationStatus, (s.sequence_number + 3) % 65536),
       some (true, TelemetryType.communicationStatus, (s.sequence_number + 3) % 65536)] := by
  simp [collectorCycle, generate_system_telemetry, generate_power_telemetry,
        generate_temperature_telemetry, generate_subsystem_telemetry,
        buildStoreTag, Nat.mod_add_mod, Nat.add_assoc]

/-- C7 (counterexample to the claim as stated): invoking
`generate_system_telemetry` alone, with no caller enqueueing anything,
already grows the queue by one packet — the generator itself performs the
store, so the caller is not the party handing the packet to the store
operation. -/
theorem generator_enqueues_itself_cx :
    (generate_system_telemetry env0 initGenState
        { capacity := 8, items := [] }).queue.items.length = 1
    ∧ (generate_system_telemetry env0 initGenState
        { capacity := 8, items := [] }).stored = true := by
  constructor
  · rfl
  · rfl

/-- C7 (amended): every generator fully populates its packet and itself
hands it to `telemetry_store_packet`; the resulting queue and success flag
are exactly those of storing the built packet into the incoming queue. -/
theorem generators_store_internally (env : Env) (s : GenState) (q : TelemQueue) :
    ((generate_system_telemetry env s q).queue =
        (telemetry_store_packet q (generate_system_telemetry env s q).packet).1
      ∧ (generate_system_telemetry env s q).stored =
        (telemetry_store_packet q (generate_system_telemetry env s q).packet).2)
    ∧ ((generate_power_telemetry env s q).queue =
        (telemetry_store_packet q (generate_power_telemetry env s q).packet).1
      ∧ (generate_power_telemetry env s q).stored =
        (telemetry_store_packet q (generate_power_telemetry env s q).packet).2)
    ∧ ((generate_temperature_telemetry env s q).queue =
        (telemetry_store_packet q (generate_temperature_telemetry env s q).packet).1
      ∧ (generate_temperature_telemetry env s q).stored =
        (telemetry_store_packet q (generate_temperature_telemetry env s q).packet).2)
    ∧ ((generate_subsystem_telemetry env s q).queue =
        (telemetry_store_packet q (generate_subsystem_telemetry env s q).packet).1
      ∧ (generate_subsystem_telemetry env s q).stored =
        (telemetry_store_packet q (generate_subsystem_telemetry env s q).packet).2) :=
  ⟨⟨rfl, rfl⟩, ⟨rfl, rfl⟩, ⟨rfl, rfl⟩, ⟨rfl, rfl⟩⟩

/-- C8: in the WOKWI configuration every virtual-voltage draw lies in
[3.1, 3.5] and every virtual-temperature draw lies in [10, 40]; in the
non-WOKWI configuration the power and temperature generators populate
their payloads with the fixed nominal constants of the source. -/
theorem virtual_sources_bounded_and_nominal :
    (∀ r : Nat,
      (31 / 10 : Rat) ≤ read_virtual_voltage r
      ∧ read_virtual_voltage r ≤ 7 / 2
      ∧ (10 : Rat) ≤ read_virtual_temperature r
      ∧ read_virtual_temperature r ≤ 40)
    ∧ (∀ (env : Env) (s : GenState) (q : TelemQueue),
      (generate_power_telemetry { env with wokwi := false } s q).packet.payload =
        TelemetryPayload.power
          { battery_voltage := 33 / 10
            battery_current := 1 / 10
            battery_temperature := 25
            solar_panel_voltage := 5
            solar_panel_current := 1 / 2
            battery_level := 85 - (s.system_uptime / 3600 : Nat)
            power_state := 0 }
      ∧ (generate_temperature_telemetry { env with wokwi := false } s q).packet.payload =
        TelemetryPayload.temperature
          { obc_temperature := 35
            comms_temperature := 28
            payload_temperature := 25
            battery_temperature := 22
            external_temperature := -15 }) := by
  constructor
  · intro r
    have hv : ((r % 200 : Nat) : Rat) ≤ 199 := by
      exact_mod_cast Nat.le_of_lt_succ (Nat.mod_lt r (by norm_num))
    have hv0 : (0 : Rat) ≤ ((r % 200 : Nat) : Rat) := Nat.cast_nonneg _
    have ht : ((r % 150 : Nat) : Rat) ≤ 149 := by
      exact_mod_cast Nat.le_of_lt_succ (Nat.mod_lt r (by norm_num))
    have ht0 : (0 : Rat) ≤ ((r % 150 : Nat) : Rat) := Nat.cast_nonneg _
    unfold read_virtual_voltage read_virtual_temperature
    refine ⟨by linarith, ?_, by linarith, ?_⟩
    · have : ((r % 200 : Nat) : Rat) / 1000 ≤ 199 / 1000 := by
        apply div_le_div_of_nonneg_right hv
        norm_num
      linarith
    · have : ((r % 150 : Nat) : Rat) / 10 ≤ 149 / 10 := by
        apply div_le_div_of_nonneg_right ht
        norm_num
      linarith
  · intro env s q
    exact ⟨rfl, rfl⟩

/-- C9: the subsystem payload's `payload_uptime` is `system_uptime - 100`
in unsigned 32-bit arithmetic with no floor: whenever the uptime counter is
below 100, the stored value wraps around to `uptime - 100 + 2^32` instead
of being clamped to zero. -/
theorem subsystem_uptime_wraps_below_100 (env : Env) (s : GenState)
    (q : TelemQueue) (h : s.system_uptime < 100) :
    (generate_subsystem_telemetry env s q).packet.payload =
      TelemetryPayload.subsystems
        { comms_status := 1
          adcs_status := 1
          payload_status := 1
          power_status := 1
          comms_uptime := s.system_uptime
          payload_uptime := s.system_uptime + 4294967196
          last_command_id := 37
          command_success_rate := 98 } := by
  have hw : (s.system_uptime + 4294967296 - 100) % 4294967296 =
      s.system_uptime + 4294967196 := by omega
  simp [generate_subsystem_telemetry, hw]
  omega

/-- C9 witness: at uptime 5 the stored subsystem uptime is the wrapped
value 4294967201, not 0. -/
theorem subsystem_uptime_wraps_below_100_witness :
    ({ sequence_number := 0, system_uptime := 5 } : GenState).system_uptime < 100
    ∧ (generate_subsystem_telemetry env0
        { sequence_number := 0, system_uptime := 5 } qCap1).packet.payload =
      TelemetryPayload.subsystems
        { comms_status := 1
          adcs_status := 1
          payload_status := 1
          power_status := 1
          comms_uptime := 5
          payload_uptime := 5 + 4294967196
          last_command_id := 37
          command_success_rate := 98 } :=
  ⟨by decide, subsystem_uptime_wraps_below_100 env0
    { sequence_number := 0, system_uptime := 5 } qCap1 (by decide)⟩

/-- C10: the shared sequence counter is post-incremented by every
generator call unconditionally, independent of whether the internal store
succeeds; concretely, against a capacity-1 queue the first cycle burns
sequence numbers 1, 2, 3 on failed stores, so the two consecutively
dequeued packets carry sequences 0 and 4 — a gap larger than 1 — although
only 8 packets were produced. -/
theorem sequence_increment_unconditional_gap :
    (∀ (env : Env) (s : GenState) (q : TelemQueue),
      (generate_system_telemetry env s q).state.sequence_number =
        (s.sequence_number + 1) % 65536
      ∧ (generate_power_telemetry env s q).state.sequence_number =
        (s.sequence_number + 1) % 65536
      ∧ (generate_temperature_telemetry env s q).state.sequence_number =
        (s.sequence_number + 1) % 65536
      ∧ (generate_subsystem_telemetry env s q).state.sequence_number =
        (s.sequence_number + 1) % 65536)
    ∧ gapCycle1.trace =
      [Event.build TelemetryType.systemStatus 0,
       Event.storeEv TelemetryType.systemStatus 0 true,
       Event.build TelemetryType.powerData 1,
       Event.storeEv TelemetryType.powerData 1 false,
       Event.build TelemetryType.temperatureData 2,
       Event.storeEv TelemetryType.temperatureData 2 false,
       Event.build TelemetryType.communicationStatus 3,
       Event.storeEv TelemetryType.communicationStatus 3 false]
    ∧ gapRet1.2.map seqOf = some 0
    ∧ gapRet2.2.map seqOf = some 4
    ∧ gapCycle2.state.sequence_number = 8 :=
  ⟨fun env s q => ⟨rfl, rfl, rfl, rfl⟩, by decide, by decide, by decide, by decide⟩

/-- C1 (counterexample to the claim as stated): with a capacity-1 queue,
packets with sequences 0 and 4 are dequeued consecutively while only 8
packets (fewer than 65536) were produced in the run, so the second
consecutive dequeue is not the first plus 1 modulo 2^16. -/
theorem sequence_gap_counterexample :
    gapRet1.2.map seqOf = some 0
    ∧ gapRet2.2.map seqOf = some 4
    ∧ gapCycle2.state.sequence_number = 8
    ∧ gapRet2.2.map seqOf ≠ some ((0 + 1) % 65536) := by
  refine ⟨by decide, by decide, by decide, by decide⟩

/-- The burst loop's final counter: one increment per drained packet. -/
theorem transmitBurst_count (l : List TelemetryPacket) (c : Nat) :
    (transmitBurst l c).1 = c + l.length := by
  induction l generalizing c with
  | nil => simp [transmitBurst]
  | cons p rest ih =>
    simp [transmitBurst, ih]
    omega

/-- The burst loop issues exactly one 50 ms delay per drained packet. -/
theorem transmitBurst_delays (l : List TelemetryPacket) (c : Nat) :
    ((transmitBurst l c).2).count (Event.delayMs 50) = l.length := by
  induction l generalizing c with
  | nil => simp [transmitBurst]
  | cons p rest ih =>
    simp [transmitBurst, List.count_cons, ih]

/-- C4: starting an iteration with the gate closed, the gate is opened
exactly when the tick, in whole seconds, is a multiple of 30; when open,
the whole queue is drained — the transmitted count grows by the occupancy,
the queue ends empty, the burst trace is the unrolled retrieve loop with a
50 ms delay per packet — and the gate ends closed in the same iteration;
when the gate condition fails, the iteration leaves everything unchanged
apart from the 2000 ms poll delay. -/
theorem transmitter_gate_open_burst_close (tick : Nat) (st : TxState)
    (q : TelemQueue) (h : st.ground_station_available = false) :
    (transmitterIteration tick st q).1.ground_station_available = false
    ∧ ((tick / 1000) % 30 = 0 →
        (transmitterIteration tick st q).1.transmission_count =
          st.transmission_count + q.items.length
        ∧ (transmitterIteration tick st q).2.1.items = []
        ∧ ((transmitterIteration tick st q).2.2).count (Event.delayMs 50) =
          q.items.length)
    ∧ ((tick / 1000) % 30 ≠ 0 →
        transmitterIteration tick st q = (st, q, [Event.delayMs 2000])) := by
  by_cases hc : (tick / 1000) % 30 = 0
  · by_cases hq : q.items = []
    · refine ⟨?_, fun _ => ⟨?_, ?_, ?_⟩, fun hn => absurd hc hn⟩ <;>
        simp [transmitterIteration, telemetry_available_packets, hc, hq]
    · have hlen : q.items.length > 0 := List.length_pos.mpr hq
      refine ⟨?_, fun _ => ⟨?_, ?_, ?_⟩, fun hn => absurd hc hn⟩ <;>
        simp [transmitterIteration, telemetry_available_packets, hc, hlen,
              transmitBurst_count, transmitBurst_delays, List.count_append]
  · refine ⟨?_, fun hn => absurd hn hc, fun _ => ?_⟩ <;>
      simp [transmitterIteration, hc, h]

/-- C4 witness: at tick 0 with one queued packet and a closed gate, the
iteration opens the window, transmits the packet, empties the queue and
closes the gate. -/
theorem transmitter_gate_open_burst_close_witness :
    ({ ground_station_available := false, transmission_count := 3 } :
        TxState).ground_station_available = false
    ∧ ((transmitterIteration 0
          { ground_station_available := false, transmission_count := 3 }
          { capacity := 8, items := [pkt0] }).1.ground_station_available = false
      ∧ ((0 / 1000) % 30 = 0 →
          (transmitterIteration 0
            { ground_station_available := false, transmission_count := 3 }
            { capacity := 8, items := [pkt0] }).1.transmission_count =
            ({ ground_station_available := false, transmission_count := 3 } :
              TxState).transmission_count +
            ({ capacity := 8, items := [pkt0] } : TelemQueue).items.length
          ∧ (transmitterIteration 0
              { ground_station_available := false, transmission_count := 3 }
              { capacity := 8, items := [pkt0] }).2.1.items = []
          ∧ ((transmitterIteration 0
              { ground_station_available := false, transmission_count := 3 }
              { capacity := 8, items := [pkt0] }).2.2).count (Event.delayMs 50) =
            ({ capacity := 8, items := [pkt0] } : TelemQueue).items.length)
      ∧ ((0 / 1000) % 30 ≠ 0 →
          transmitterIteration 0
            { ground_station_available := false, transmission_count := 3 }
            { capacity := 8, items := [pkt0] } =
          ({ ground_station_available := false, transmission_count := 3 },
           { capacity := 8, items := [pkt0] }, [Event.delayMs 2000]))) :=
  ⟨rfl, transmitter_gate_open_burst_close 0
    { ground_station_available := false, transmission_count := 3 }
    { capacity := 8, items := [pkt0] } rfl⟩

/-- C5: an iteration whose gate condition fails at poll time, starting with
the gate closed, performs no dequeue at all: the queue, the transmitter
state and the trace (a bare 2000 ms poll delay) are untouched. -/
theorem transmitter_closed_gate_no_dequeue (tick : Nat) (st : TxState)
    (q : TelemQueue) (h1 : st.ground_station_available = false)
    (h2 : (tick / 1000) % 30 ≠ 0) :
    transmitterIteration tick st q = (st, q, [Event.delayMs 2000]) := by
  simp [transmitterIteration, h1, h2]

/-- C5 witness: at tick 1000 (second 1, not a multiple of 30) nothing is
dequeued. -/
theorem transmitter_closed_gate_no_dequeue_witness :
    ({ ground_station_available := false, transmission_count := 0 } :
        TxState).ground_station_available = false
    ∧ (1000 / 1000) % 30 ≠ 0
    ∧ transmitterIteration 1000
        { ground_station_available := false, transmission_count := 0 }
        { capacity := 8, items := [pkt0] } =
      ({ ground_station_available := false, transmission_count := 0 },
       { capacity := 8, items := [pkt0] }, [Event.delayMs 2000]) :=
  ⟨rfl, by decide, transmitter_closed_gate_no_dequeue 1000
    { ground_station_available := false, transmission_count := 0 }
    { capacity := 8, items := [pkt0] } rfl (by decide)⟩

/-- One interleaved queue operation preserves the competing-consumers
invariant. -/
theorem consStep_preserves (st : ConsState) (op : SysOp)
    (h : consInv st) : consInv (consStep st op) := by
  obtain ⟨hc, hl⟩ := h
  cases op with
  | storeOp p =>
    by_cases hcap : st.queue.items.length < st.queue.capacity
    · constructor
      · intro pk
        have hpk := hc pk
        by_cases hp : p = pk <;>
          simp [consStep, telemetry_store_packet, hcap, List.count_append, hp] <;>
          omega
      · simp [consStep, telemetry_store_packet, hcap]
        omega
    · constructor
      · intro pk
        have hpk := hc pk
        simp [consStep, telemetry_store_packet, hcap]
        omega
      · simp [consStep, telemetry_store_packet, hcap]
        omega
  | retrieveOp t =>
    rcases hqi : st.queue.items with _ | ⟨p, rest⟩
    · constructor
      · intro pk
        have hpk := hc pk
        simp [consStep, telemetry_retrieve_packet, hqi] at hpk ⊢
        omega
      · simp [consStep, telemetry_retrieve_packet, hqi] at hl ⊢
        omega
    · cases t
      · constructor
        · intro pk
          have hpk := hc pk
          rw [hqi] at hpk
          by_cases hp : pk = p
          · subst hp
            simp [consStep, telemetry_retrieve_packet, hqi, List.count_append,
                  List.count_cons] at hpk ⊢
            omega
          · simp [consStep, telemetry_retrieve_packet, hqi, List.count_append,
                  List.count_cons, hp] at hpk ⊢
            omega
        · rw [hqi] at hl
          simp [consStep, telemetry_retrieve_packet, hqi] at hl ⊢
          omega
      · constructor
        · intro pk
          have hpk := hc pk
          rw [hqi] at hpk
          by_cases hp : pk = p
          · subst hp
            simp [consStep, telemetry_retrieve_packet, hqi, List.count_append,
                  List.count_cons] at hpk ⊢
            omega
          · simp [consStep, telemetry_retrieve_packet, hqi, List.count_append,
                  List.count_cons, hp] at hpk ⊢
            omega
        · rw [hqi] at hl
          simp [consStep, telemetry_retrieve_packet, hqi] at hl ⊢
          omega

/-- Any interleaving of queue operations preserves the invariant. -/
theorem consFold_preserves (ops : List SysOp) :
    ∀ st : ConsState, consInv st → consInv (List.foldl consStep st ops) := by
  induction ops with
  | nil => intro st h; exact h
  | cons op rest ih => intro st h; exact ih _ (consStep_preserves st op h)

/-- C3: under any interleaving of Collector stores and Processor and
Transmitter retrieves from an initially empty queue, every successfully
stored packet is delivered to exactly one of the two consumers or is still
queued — per packet value, Processor deliveries + Transmitter deliveries +
queue occupancy equal the successful stores, with no duplication. -/
theorem competing_consumers_exactly_once (cap : Nat) (ops : List SysOp) :
    (∀ pk : TelemetryPacket,
      (consRun cap ops).takenP.count pk + (consRun cap ops).takenT.count pk
        + (consRun cap ops).queue.items.count pk =
        (consRun cap ops).storedOk.count pk)
    ∧ (consRun cap ops).takenP.length + (consRun cap ops).takenT.length
        + (consRun cap ops).queue.items.length =
        (consRun cap ops).storedOk.length :=
  consFold_preserves ops _ ⟨fun _ => rfl, rfl⟩

/-- One Collector cycle with room for all four packets appends exactly the
four consecutive (mod 2^16) sequence numbers to the queue and advances the
shared counter by 4. -/
theorem collectorCycle_seqs (e1 e2 e3 e4 : Env) (s : GenState)
    (q : TelemQueue) (hcap : q.items.length + 4 ≤ q.capacity) :
    (collectorCycle e1 e2 e3 e4 s q).queue.items.map seqOf =
      q.items.map seqOf ++
        [s.sequence_number, (s.sequence_number + 1) % 65536,
         (s.sequence_number + 2) % 65536, (s.sequence_number + 3) % 65536]
    ∧ (collectorCycle e1 e2 e3 e4 s q).queue.capacity = q.capacity
    ∧ (collectorCycle e1 e2 e3 e4 s q).queue.items.length = q.items.length + 4
    ∧ (collectorCycle e1 e2 e3 e4 s q).state.sequence_number =
      (s.sequence_number + 4) % 65536 := by
  have h1 : q.items.length < q.capacity := by omega
  have h2 : q.items.length + 1 < q.capacity := by omega
  have h3 : q.items.length + 2 < q.capacity := by omega
  have h4 : q.items.length + 3 < q.capacity := by omega
  simp [collectorCycle, generate_system_telemetry, generate_power_telemetry,
        generate_temperature_telemetry, generate_subsystem_telemetry,
        telemetry_store_packet, seqOf, h1, h2, h3, h4, Nat.mod_add_mod,
        Nat.add_assoc]

/-- A Collector run that never fills the queue lays down, after the
pre-existing items, the consecutive (mod 2^16) sequence numbers starting
at the current counter. -/
theorem collectorRun_seqs :
    ∀ (L : List (Env × Env × Env × Env)) (s : GenState) (q : TelemQueue),
    q.items.length + 4 * L.length ≤ q.capacity → s.sequence_number < 65536 →
    (collectorRun L s q).2.items.map seqOf =
      q.items.map seqOf ++
        (List.range (4 * L.length)).map
          (fun i => (s.sequence_number + i) % 65536) := by
  intro L
  induction L with
  | nil =>
    intro s q _ _
    simp [collectorRun]
  | cons e rest ih =>
    intro s q hcap hs
    have hlenL : (e :: rest).length = rest.length + 1 := rfl
    have hcap4 : q.items.length + 4 ≤ q.capacity := by
      rw [hlenL] at hcap; omega
    obtain ⟨hmap, hcapeq, hlen, hseq⟩ :=
      collectorCycle_seqs e.1 e.2.1 e.2.2.1 e.2.2.2 s q hcap4
    have hs2 : (collectorCycle e.1 e.2.1 e.2.2.1 e.2.2.2 s q).state.sequence_number
        < 65536 := by
      rw [hseq]; exact Nat.mod_lt _ (by norm_num)
    have hcap2 : (collectorCycle e.1 e.2.1 e.2.2.1 e.2.2.2 s q).queue.items.length
        + 4 * rest.length ≤
        (collectorCycle e.1 e.2.1 e.2.2.1 e.2.2.2 s q).queue.capacity := by
      rw [hlen, hcapeq]
      have hcapx := hcap
      rw [hlenL] at hcapx
      omega
    have ihr := ih (collectorCycle e.1 e.2.1 e.2.2.1 e.2.2.2 s q).state
      (collectorCycle e.1 e.2.1 e.2.2.1 e.2.2.2 s q).queue hcap2 hs2
    have hstep : collectorRun (e :: rest) s q =
        collectorRun rest (collectorCycle e.1 e.2.1 e.2.2.1 e.2.2.2 s q).state
          (collectorCycle e.1 e.2.1 e.2.2.1 e.2.2.2 s q).queue := rfl
    rw [hstep, ihr, hmap, hseq, hlenL]
    have hsplit : 4 * (rest.length + 1) = 4 + 4 * rest.length := by ring
    rw [hsplit, List.range_add]
    have hr4 : List.range 4 = [0, 1, 2, 3] := rfl
    rw [List.map_append, hr4, List.map_map, List.append_assoc]
    have hfun : ∀ i : Nat,
        ((s.sequence_number + 4) % 65536 + i) % 65536 =
        (s.sequence_number + (4 + i)) % 65536 := by
      intro i; omega
    have hmaps : (List.range (4 * rest.length)).map
          (fun i => ((s.sequence_number + 4) % 65536 + i) % 65536) =
        (List.range (4 * rest.length)).map
          ((fun i => (s.sequence_number + i) % 65536) ∘ (fun i => 4 + i)) := by
      apply List.map_congr_left
      intro i _
      exact hfun i
    rw [hmaps]
    have hhead : [0, 1, 2, 3].map (fun i => (s.sequence_number + i) % 65536) =
        [s.sequence_number % 65536, (s.sequence_number + 1) % 65536,
         (s.sequence_number + 2) % 65536, (s.sequence_number + 3) % 65536] := rfl
    have hs0 : s.sequence_number % 65536 = s.sequence_number :=
      Nat.mod_eq_of_lt hs
    simp [hhead, hs0]

/-- C1 (amended): if every store succeeds (the queue never fills during the
run) and fewer than 65536 packets are produced from the initial counters,
any two consecutively dequeued packets — equivalently, adjacent packets in
the FIFO queue order — have sequence numbers that differ by exactly 1
modulo 2^16. -/
theorem dequeue_sequences_consecutive (L : List (Env × Env × Env × Env))
    (cap i : Nat) (hcap : 4 * L.length ≤ cap)
    (_hproduced : 4 * L.length < 65536)
    (hi : i + 1 <
      ((collectorRun L initGenState { capacity := cap, items := [] }).2.items.map
        seqOf).length) :
    ((collectorRun L initGenState { capacity := cap, items := [] }).2.items.map
        seqOf).getD (i + 1) 0 =
      (((collectorRun L initGenState { capacity := cap, items := [] }).2.items.map
        seqOf).getD i 0 + 1) % 65536 := by
  have hrun := collectorRun_seqs L initGenState { capacity := cap, items := [] }
    (by simpa using hcap) (by simp [initGenState])
  rw [hrun] at hi ⊢
  simp only [initGenState, List.map_nil, List.nil_append] at hi ⊢
  have hi1 : i + 1 < (List.range (4 * L.length)).length := by
    simpa using hi
  have hi0 : i < (List.range (4 * L.length)).length := by omega
  have hm1 : i + 1 <
      ((List.range (4 * L.length)).map (fun j => (0 + j) % 65536)).length := by
    simpa using hi1
  have hm0 : i <
      ((List.range (4 * L.length)).map (fun j => (0 + j) % 65536)).length := by
    simpa using hi0
  rw [List.getD_eq_getElem _ _ hm1, List.getD_eq_getElem _ _ hm0]
  simp only [List.getElem_map, List.getElem_range]
  omega

/-- C1 witness: with 2 cycles (8 packets, all stored) into a capacity-8
queue, the packets at dequeue positions 2 and 3 have sequences 2 and 3. -/
theorem dequeue_sequences_consecutive_witness :
    4 * runL2.length ≤ 8
    ∧ 4 * runL2.length < 65536
    ∧ 2 + 1 <
      ((collectorRun runL2 initGenState { capacity := 8, items := [] }).2.items.map
        seqOf).length
    ∧ ((collectorRun runL2 initGenState { capacity := 8, items := [] }).2.items.map
        seqOf).getD (2 + 1) 0 =
      (((collectorRun runL2 initGenState { capacity := 8, items := [] }).2.items.map
        seqOf).getD 2 0 + 1) % 65536 :=
  ⟨by decide, by decide, by decide,
   dequeue_sequences_consecutive runL2 8 2 (by decide) (by decide) (by decide)⟩

/-- With enough fuel (at least the occupancy), the retrieve-driven drain
loop empties the queue and produces exactly the counter and trace of
`transmitBurst` on the queue contents: the list-level burst used in
`transmitterIteration` is the unrolled `while` loop. -/
theorem drainAllFuel_eq_transmitBurst :
    ∀ (l : List TelemetryPacket) (cap c fuel : Nat), l.length ≤ fuel →
    drainAllFuel fuel { capacity := cap, items := l } c =
      ({ capacity := cap, items := [] }, (transmitBurst l c).1,
       (transmitBurst l c).2) := by
  intro l
  induction l with
  | nil =>
    intro cap c fuel _
    cases fuel with
    | zero => simp [drainAllFuel, transmitBurst]
    | succ f => simp [drainAllFuel, telemetry_retrieve_packet, transmitBurst]
  | cons p rest ih =>
    intro cap c fuel hf
    cases fuel with
    | zero => simp at hf
    | succ f =>
      have hfr : rest.length ≤ f := by simp at hf; omega
      simp [drainAllFuel, telemetry_retrieve_packet, transmitBurst,
            ih cap (c + 1) f hfr]
